import Mathlib

/-!
Verification of the `stepstate` finite-state-machine stepping engine
(`src/steps.js`): a shallow embedding of the state-record data model, the
`archive` helper, the `step` function produced by the module's exported
constructor (`makeStepper` here), and the `State` record constructor,
together with theorems settling the specification's claims.

Modelling conventions:
- JavaScript values that a handler may return or throw are modelled by the
  inductive `DV`.  Exactly one record object is in play during a step call,
  so a reference to it is the single constructor `DV.theRecord`; the
  reference-identity test `transition === state` in the source becomes
  equality with `DV.theRecord`.
- A handler (and the reserved catch handler — in the source both live in the
  same `handlers` object and have the same dynamic type) is a function
  `JsFun : List DV → Record → Record × Except DV DV`: it receives its
  argument list and the current record contents, and yields the record
  contents after its in-place mutations together with either a returned
  value (`Except.ok`) or a thrown value (`Except.error`).
- `Date.now()` is passed in as an explicit `now : Int` parameter.
- A rejected promise is modelled by `StepResult.err e r` where `r` is the
  record contents at the moment of the throw: in the source the caller still
  holds the (mutated-in-place) record even when the step call rejects.
- The construction-time `assert(handlers)` and the call-time
  `assert(state)` guards (absent/falsy arguments) are outside the model:
  the embedding always receives a handler table and a record.
-/

namespace StepState

/-- A JavaScript value as seen by the stepping engine: `undefined`/`null`
(collapsed, as the source only tests them with `== null` and truthiness),
booleans, numbers, strings, and a reference to the one record being
stepped. -/
inductive DV where
  | undef : DV
  | boolean : Bool → DV
  | num : Int → DV
  | str : String → DV
  | theRecord : DV
deriving DecidableEq

/-- JavaScript truthiness for `DV` values, as used by `if(transition)` in
the source: `undefined`/`null` and `false` are falsy, a number is truthy
iff nonzero, a string is truthy iff non-empty, an object reference is
truthy. -/
def truthy : DV → Bool
  | DV.undef => false
  | DV.boolean b => b
  | DV.num n => n != 0
  | DV.str s => s != ""
  | DV.theRecord => true

/-- One entry of `record.history`: the `{state, updated}` snapshot pushed by
`archive` (src/steps.js lines 9-12). -/
structure Snapshot where
  state : String
  updated : Int
deriving DecidableEq

/-- The stateful record threaded through the engine.  `history` is
`Option`-valued because the source distinguishes an absent/`null` history
(initialized by `archive`) from a present one; `fields` carries the
arbitrary extra caller-defined fields. -/
structure Record where
  state : String
  done : Bool
  history : Option (List Snapshot)
  updated : Int
  fields : List (String × DV)
deriving DecidableEq

/-- A handler function: argument list and current record contents in,
record contents after mutation and a returned (`Except.ok`) or thrown
(`Except.error`) value out.  Ordinary state handlers are called with
`DV.theRecord :: args`; the catch handler with `e :: DV.theRecord :: args`
(src/steps.js lines 24 and 26). -/
def JsFun : Type := List DV → Record → Record × Except DV DV

/-- The default catch handler installed at construction when the user table
has no `catch` entry: `e => { throw e }` (src/steps.js line 5).  It throws
its first argument (with zero arguments, `e` is `undefined`) and mutates
nothing. -/
def defaultCatch : JsFun := fun args r => (r, Except.error (args.headD DV.undef))

/-- The handler table after construction:
`if (handlers.catch == null) handlers.catch = e => { throw e }`
(src/steps.js line 5).  The catch handler lives at the key `"catch"` of the
same object that ordinary state handlers live in, so after construction a
lookup of `"catch"` always succeeds. -/
def installCatch (handlers : String → Option JsFun) : String → Option JsFun :=
  fun k => if k = "catch" then some ((handlers "catch").getD defaultCatch) else handlers k

/-- `archive` (src/steps.js lines 7-14): initialize `history` to `[]` when
absent, then `unshift` the `{state: state.state, updated: state.updated}`
snapshot onto its front. -/
def archive (state : Record) : Record :=
  { state with history := some (Snapshot.mk state.state state.updated :: state.history.getD []) }

/-- The in-place assignment `state.updated = Date.now()` (src/steps.js
line 23). -/
def setUpdated (r : Record) (now : Int) : Record :=
  { r with updated := now }

/-- The in-place assignment `state.state = transition` (src/steps.js
line 32). -/
def setState (r : Record) (s : String) : Record :=
  { r with state := s }

/-- The ways a step call can reject: the `Invalid state trasition` assertion
(src/steps.js line 19, message spelled as in the source), the bad-return-type
assertion (line 30), or a value raised out of the catch handler (line 26). -/
inductive StepErr where
  | invalidState : String → StepErr
  | badReturnType : String → StepErr
  | raised : DV → StepErr
deriving DecidableEq

/-- Outcome of a step call: a resolved promise carrying the record, or a
rejected one.  The `Record` component of `err` is the record contents at the
moment of the throw — in-place mutations made before the throw persist. -/
inductive StepResult where
  | ok : Record → StepResult
  | err : StepErr → Record → StepResult
deriving DecidableEq

/-- The tail of `step` interpreting the transition result
(src/steps.js lines 28-34): if it is the record reference itself, return the
record; otherwise, if it is truthy it must be a string (else the
bad-return-type assertion throws) and is assigned to `record.state`; falsy
values cause no reassignment. -/
def interpretTransition (state : Record) (transition : DV) : StepResult :=
  if transition = DV.theRecord then StepResult.ok state
  else if truthy transition then
    match transition with
    | DV.str s => StepResult.ok (setState state s)
    | _ => StepResult.err
        (StepErr.badReturnType "State handlers must return either a string state transition or nothing")
        state
  else StepResult.ok state

/-- `step` (src/steps.js lines 16-36) over an already-constructed handler
table: short-circuit on `done`; assert that `handlers[state.state]` exists;
archive, stamp `updated` with the current time, and invoke the handler with
`(record, ...args)`; on a throw, invoke `handlers.catch` with
`(e, record, ...args)` and use its return as the transition result (a throw
from the catch itself rejects the call); finally interpret the transition
result. -/
def step (handlers : String → Option JsFun) (now : Int) (state : Record) (args : List DV) :
    StepResult :=
  if state.done then StepResult.ok state
  else
    match handlers state.state with
    | none => StepResult.err (StepErr.invalidState ("Invalid state trasition: " ++ state.state)) state
    | some f =>
      match f (DV.theRecord :: args) (setUpdated (archive state) now) with
      | (s3, Except.ok transition) => interpretTransition s3 transition
      | (s3, Except.error e) =>
        match handlers "catch" with
        | none => StepResult.err (StepErr.raised e) s3
        | some c =>
          match c (e :: DV.theRecord :: args) s3 with
          | (s4, Except.ok transition) => interpretTransition s4 transition
          | (s4, Except.error e2) => StepResult.err (StepErr.raised e2) s4

/-- The exported constructor `module.exports = (handlers) => ... step`
(src/steps.js lines 3-38): install the default catch handler if needed and
return the step function closed over the table. -/
def makeStepper (handlers : String → Option JsFun) (now : Int) (state : Record)
    (args : List DV) : StepResult :=
  step (installCatch handlers) now state args

/-- The optional argument of `module.exports.State` viewed field by field:
`none` means the caller did not supply that key, so the default survives the
object spread `{state:'Start', done:false, history:[], updated:Date.now(),
...state}`. -/
structure StateInit where
  state : Option String := none
  done : Option Bool := none
  history : Option (Option (List Snapshot)) := none
  updated : Option Int := none
  fields : List (String × DV) := []

/-- `module.exports.State` (src/steps.js lines 40-48): defaults overlaid
with the caller-supplied fields, caller fields winning. -/
def State (now : Int) (init : StateInit) : Record :=
  { state := init.state.getD "Start"
  , done := init.done.getD false
  , history := init.history.getD (some [])
  , updated := init.updated.getD now
  , fields := init.fields }

/-! ### Concrete handler tables and records used to instantiate theorems -/

/-- A handler that returns the string `"Middle"` and mutates nothing. -/
def retMiddle : JsFun := fun _ r => (r, Except.ok (DV.str "Middle"))

/-- A handler that returns the empty string and mutates nothing. -/
def retEmptyStr : JsFun := fun _ r => (r, Except.ok (DV.str ""))

/-- A handler that returns the boolean `true` (truthy, non-string,
non-record) and mutates nothing. -/
def retTrue : JsFun := fun _ r => (r, Except.ok (DV.boolean true))

/-- A handler that throws the number `7` and mutates nothing. -/
def throwSeven : JsFun := fun _ r => (r, Except.error (DV.num 7))

/-- A catch handler that returns the string `"End"` and mutates nothing. -/
def catchToEnd : JsFun := fun _ r => (r, Except.ok (DV.str "End"))

/-- Table with one ordinary handler `Start ↦ retMiddle` and no catch entry. -/
def tableA : String → Option JsFun :=
  fun k => if k = "Start" then some retMiddle else none

/-- Table with `Start ↦ throwSeven` and a user catch entry `catchToEnd`. -/
def tableB : String → Option JsFun :=
  fun k => if k = "Start" then some throwSeven
    else if k = "catch" then some catchToEnd else none

/-- Table with `Start ↦ retEmptyStr` and no catch entry. -/
def tableEmptyRet : String → Option JsFun :=
  fun k => if k = "Start" then some retEmptyStr else none

/-- Table with `Start ↦ retTrue` and no catch entry. -/
def tableBadRet : String → Option JsFun :=
  fun k => if k = "Start" then some retTrue else none

/-- Table with `Start ↦ throwSeven` and a user catch entry returning the
empty string. -/
def tableCatchEmpty : String → Option JsFun :=
  fun k => if k = "Start" then some throwSeven
    else if k = "catch" then some retEmptyStr else none

/-- Table with `Start ↦ throwSeven` and no catch entry. -/
def tableThrowOnly : String → Option JsFun :=
  fun k => if k = "Start" then some throwSeven else none

/-- The empty handler table. -/
def tableNone : String → Option JsFun := fun _ => none

/-- A fresh record in state `"Start"` with empty history and timestamp 0. -/
def recStart : Record := Record.mk "Start" false (some []) 0 []

/-- A record whose state is the reserved key `"catch"`. -/
def recCatch : Record := Record.mk "catch" false (some []) 0 []

/-! ### Helper lemmas -/

/-- Unfolding of `step` on a non-done record whose state has a handler. -/
theorem step_some_eq (handlers : String → Option JsFun) (now : Int) (r : Record)
    (args : List DV) (f : JsFun) (hdone : r.done = false) (hf : handlers r.state = some f) :
    step handlers now r args =
      match f (DV.theRecord :: args) (setUpdated (archive r) now) with
      | (s3, Except.ok transition) => interpretTransition s3 transition
      | (s3, Except.error e) =>
        match handlers "catch" with
        | none => StepResult.err (StepErr.raised e) s3
        | some c =>
          match c (e :: DV.theRecord :: args) s3 with
          | (s4, Except.ok transition) => interpretTransition s4 transition
          | (s4, Except.error e2) => StepResult.err (StepErr.raised e2) s4 := by
  unfold step
  rw [hdone, if_neg Bool.false_ne_true, hf]

/-- `interpretTransition` never changes the `history` field when it
succeeds. -/
theorem interpretTransition_ok_history (s : Record) (t : DV) (r2 : Record)
    (h : interpretTransition s t = StepResult.ok r2) : r2.history = s.history := by
  unfold interpretTransition at h
  split at h
  · injection h with h2
    subst h2
    rfl
  · split at h
    · cases t with
      | str x =>
        injection h with h2
        subst h2
        rfl
      | undef => exact absurd h (by simp)
      | boolean b => exact absurd h (by simp)
      | num n => exact absurd h (by simp)
      | theRecord => exact absurd h (by simp)
    · injection h with h2
      subst h2
      rfl

/-- `interpretTransition` never yields the invalid-state error. -/
theorem interpretTransition_ne_invalid (s : Record) (t : DV) (m : String) (r2 : Record) :
    interpretTransition s t ≠ StepResult.err (StepErr.invalidState m) r2 := by
  unfold interpretTransition
  split
  · simp
  · split
    · cases t <;> simp
    · simp

/-- A truthy transition result that is neither a string nor the record
reference trips the bad-return-type assertion. -/
theorem interpretTransition_bad (s : Record) (t : DV) (ht : truthy t = true)
    (hns : ∀ x, t ≠ DV.str x) (hnr : t ≠ DV.theRecord) :
    interpretTransition s t = StepResult.err
      (StepErr.badReturnType "State handlers must return either a string state transition or nothing")
      s := by
  unfold interpretTransition
  rw [if_neg hnr, if_pos ht]
  cases t with
  | str x => exact absurd rfl (hns x)
  | undef => rfl
  | boolean b => rfl
  | num n => rfl
  | theRecord => exact absurd rfl hnr

/-- Once the handler lookup succeeds, no execution path of `step` produces
the invalid-state error. -/
theorem step_not_invalid_of_some (handlers : String → Option JsFun) (now : Int) (r : Record)
    (args : List DV) (f : JsFun) (hf : handlers r.state = some f) (m : String) (r2 : Record) :
    step handlers now r args ≠ StepResult.err (StepErr.invalidState m) r2 := by
  cases hd : r.done with
  | true =>
    unfold step
    rw [hd, if_pos rfl]
    simp
  | false =>
    rw [step_some_eq handlers now r args f hd hf]
    split
    · exact interpretTransition_ne_invalid _ _ _ _
    · split
      · simp
      · split
        · exact interpretTransition_ne_invalid _ _ _ _
        · simp

/-- Unfolding of `step` on a non-done record whose handler throws and whose
table has a catch entry: the catch handler is invoked with
`(e, record, ...args)` and its outcome decides the step. -/
theorem step_throw_eq (handlers : String → Option JsFun) (now : Int) (r : Record)
    (args : List DV) (f : JsFun) (s3 : Record) (e : DV) (c : JsFun)
    (hdone : r.done = false) (hf : handlers r.state = some f)
    (hthrow : f (DV.theRecord :: args) (setUpdated (archive r) now) = (s3, Except.error e))
    (hc : handlers "catch" = some c) :
    step handlers now r args =
      match c (e :: DV.theRecord :: args) s3 with
      | (s4, Except.ok transition) => interpretTransition s4 transition
      | (s4, Except.error e2) => StepResult.err (StepErr.raised e2) s4 := by
  rw [step_some_eq handlers now r args f hdone hf, hthrow, hc]

/-- `interpretTransition` on a non-empty string assigns it to `record.state`. -/
theorem interpretTransition_str (s : Record) (S : String) (hS : S ≠ "") :
    interpretTransition s (DV.str S) = StepResult.ok (setState s S) := by
  unfold interpretTransition
  rw [if_neg (by simp), if_pos (by simp [truthy, hS])]

/-- `interpretTransition` on the empty string (falsy) returns the record
with no reassignment. -/
theorem interpretTransition_emptyStr (s : Record) :
    interpretTransition s (DV.str "") = StepResult.ok s := rfl

/-! ### Claim theorems -/

/-- C2: for every record with `done = true`, stepping returns the identical
record — no archiving, no handler invocation, no timestamp update, and no
change to `history`, `updated`, or `state`. -/
theorem step_done_returns_record (H : String → Option JsFun) (now : Int) (r : Record)
    (args : List DV) (hdone : r.done = true) :
    makeStepper H now r args = StepResult.ok r := by
  unfold makeStepper step
  rw [hdone, if_pos rfl]

/-- Witness for C2 at a concrete done record. -/
theorem step_done_returns_record_witness :
    makeStepper tableA 9 (Record.mk "Start" true (some []) 3 []) []
      = StepResult.ok (Record.mk "Start" true (some []) 3 []) :=
  step_done_returns_record tableA 9 (Record.mk "Start" true (some []) 3 []) [] rfl

/-- C3: for every non-done record whose state names no registered handler,
the step call fails with the invalid-state error, before any mutation (the
record carried by the error is the input record, `history` and `updated`
untouched), and the catch handler is never substituted: the result is this
error for every handler table, whatever its catch entry. -/
theorem step_invalid_state (H : String → Option JsFun) (now : Int) (r : Record)
    (args : List DV) (hdone : r.done = false) (hmiss : installCatch H r.state = none) :
    makeStepper H now r args
      = StepResult.err (StepErr.invalidState ("Invalid state trasition: " ++ r.state)) r := by
  unfold makeStepper step
  rw [hdone, if_neg Bool.false_ne_true, hmiss]

/-- Witness for C3 at a concrete record whose state has no handler. -/
theorem step_invalid_state_witness :
    makeStepper tableA 9 (Record.mk "Nope" false (some []) 0 []) []
      = StepResult.err (StepErr.invalidState ("Invalid state trasition: " ++ "Nope"))
          (Record.mk "Nope" false (some []) 0 []) :=
  step_invalid_state tableA 9 (Record.mk "Nope" false (some []) 0 []) [] rfl rfl

/-- C5 (amended): for every non-done record whose handler returns a
*non-empty* string `S` as its transition result, the engine assigns
`record.state = S`.  (The claim as stated fails at `S = ""`: the empty
string is falsy, so the source performs no reassignment — see the
counterexample.) -/
theorem step_string_transition (H : String → Option JsFun) (now : Int) (r : Record)
    (args : List DV) (f : JsFun) (s3 : Record) (S : String)
    (hdone : r.done = false)
    (hf : installCatch H r.state = some f)
    (hret : f (DV.theRecord :: args) (setUpdated (archive r) now) = (s3, Except.ok (DV.str S)))
    (hS : S ≠ "") :
    makeStepper H now r args = StepResult.ok (setState s3 S) := by
  unfold makeStepper
  rw [step_some_eq (installCatch H) now r args f hdone hf, hret]
  exact interpretTransition_str s3 S hS

/-- Witness for C5 (amended): the `Start` handler returns `"Middle"` and the
post-step state is `"Middle"`. -/
theorem step_string_transition_witness :
    makeStepper tableA 9 recStart []
      = StepResult.ok (setState (setUpdated (archive recStart) 9) "Middle") :=
  step_string_transition tableA 9 recStart [] retMiddle (setUpdated (archive recStart) 9)
    "Middle" rfl rfl rfl (by decide)

/-- C5 counterexample: the `Start` handler returns the string `""` (not
reference-identical to the record), yet the post-step state is `"Start"`,
not `""` — the empty string is falsy so no reassignment happens. -/
theorem step_string_transition_cex :
    makeStepper tableEmptyRet 9 recStart []
        = StepResult.ok (Record.mk "Start" false (some [Snapshot.mk "Start" 0]) 9 [])
      ∧ (Record.mk "Start" false (some [Snapshot.mk "Start" 0]) 9 []).state ≠ "" :=
  ⟨rfl, by decide⟩

/-- C10: for every non-done record whose transition result is the empty
string (falsy but defined), the step succeeds with no error and performs no
reassignment of `record.state`: the result is exactly the record as the
handler left it. -/
theorem step_empty_string_result (H : String → Option JsFun) (now : Int) (r : Record)
    (args : List DV) (f : JsFun) (s3 : Record)
    (hdone : r.done = false)
    (hf : installCatch H r.state = some f)
    (hret : f (DV.theRecord :: args) (setUpdated (archive r) now) = (s3, Except.ok (DV.str ""))) :
    makeStepper H now r args = StepResult.ok s3 := by
  unfold makeStepper
  rw [step_some_eq (installCatch H) now r args f hdone hf, hret]
  exact interpretTransition_emptyStr s3

/-- Witness for C10 at a concrete handler returning the empty string. -/
theorem step_empty_string_result_witness :
    makeStepper tableEmptyRet 9 recStart [] = StepResult.ok (setUpdated (archive recStart) 9) :=
  step_empty_string_result tableEmptyRet 9 recStart [] retEmptyStr
    (setUpdated (archive recStart) 9) rfl rfl rfl

/-- C1: after any successful step on a non-done record (with handlers and
catch handler that leave the `history` field to the engine), `history[0]`
equals the `{state, updated}` snapshot from immediately before the step, and
the history length is exactly one greater than before (history initialized
to `[]` first if it was absent: the pre-step history is read as
`r.history.getD []`). -/
theorem step_archives_history (H : String → Option JsFun) (now : Int) (r : Record)
    (args : List DV) (f c : JsFun) (r2 : Record)
    (hdone : r.done = false)
    (hf : installCatch H r.state = some f)
    (hc : installCatch H "catch" = some c)
    (hfh : ∀ s, ((f (DV.theRecord :: args) s).1).history = s.history)
    (hch : ∀ e s, ((c (e :: DV.theRecord :: args) s).1).history = s.history)
    (hok : makeStepper H now r args = StepResult.ok r2) :
    r2.history = some (Snapshot.mk r.state r.updated :: r.history.getD []) ∧
    (r2.history.getD []).length = (r.history.getD []).length + 1 := by
  have hmain : r2.history = some (Snapshot.mk r.state r.updated :: r.history.getD []) := by
    unfold makeStepper at hok
    rw [step_some_eq (installCatch H) now r args f hdone hf] at hok
    split at hok
    next x s3 t heq =>
      have h1 : s3.history = (setUpdated (archive r) now).history := by
        have h0 := hfh (setUpdated (archive r) now)
        rw [heq] at h0
        exact h0
      have h2 : r2.history = s3.history := interpretTransition_ok_history s3 t r2 hok
      exact h2.trans (h1.trans rfl)
    next x s3 e heq =>
      rw [hc] at hok
      split at hok
      next x2 heq2 => exact absurd heq2 (by simp)
      next x2 c2 heq2 =>
        have hcc : c2 = c := (Option.some.inj heq2).symm
        subst hcc
        split at hok
        next x3 s4 t heq3 =>
          have h1 : s3.history = (setUpdated (archive r) now).history := by
            have h0 := hfh (setUpdated (archive r) now)
            rw [heq] at h0
            exact h0
          have h3 : s4.history = s3.history := by
            have h0 := hch e s3
            rw [heq3] at h0
            exact h0
          have h2 : r2.history = s4.history := interpretTransition_ok_history s4 t r2 hok
          exact h2.trans ((h3.trans h1).trans rfl)
        next x3 s4 e2 heq3 => exact absurd hok (by simp)
  exact ⟨hmain, by rw [hmain]; rfl⟩

/-- Witness for C1: stepping a fresh `Start` record through `tableA` pushes
the pre-step snapshot and grows the history by one. -/
theorem step_archives_history_witness :
    (Record.mk "Middle" false (some [Snapshot.mk "Start" 0]) 9 []).history
        = some (Snapshot.mk recStart.state recStart.updated :: recStart.history.getD []) ∧
    ((Record.mk "Middle" false (some [Snapshot.mk "Start" 0]) 9 []).history.getD []).length
        = (recStart.history.getD []).length + 1 :=
  step_archives_history tableA 9 recStart [] retMiddle defaultCatch
    (Record.mk "Middle" false (some [Snapshot.mk "Start" 0]) 9 [])
    rfl rfl rfl (fun _ => rfl) (fun _ _ => rfl) rfl

/-- C4 (amended): for every non-done record whose handler throws, the thrown
error together with the record and the extra arguments is passed to the
registered catch handler, and the catch handler's return value replaces the
transition result; in particular if it returns a *non-empty* string `E`,
post-step `record.state = E` and the original error does not propagate.
(The claim as stated fails at `E = ""`: the empty string is falsy, so no
reassignment happens — see the counterexample.) -/
theorem step_catch_string (H : String → Option JsFun) (now : Int) (r : Record)
    (args : List DV) (f c : JsFun) (s3 s4 : Record) (e : DV) (E : String)
    (hdone : r.done = false)
    (hf : installCatch H r.state = some f)
    (hc : installCatch H "catch" = some c)
    (hthrow : f (DV.theRecord :: args) (setUpdated (archive r) now) = (s3, Except.error e))
    (hcret : c (e :: DV.theRecord :: args) s3 = (s4, Except.ok (DV.str E)))
    (hE : E ≠ "") :
    makeStepper H now r args = StepResult.ok (setState s4 E) := by
  unfold makeStepper
  rw [step_throw_eq (installCatch H) now r args f s3 e c hdone hf hthrow hc, hcret]
  exact interpretTransition_str s4 E hE

/-- Witness for C4 (amended): `Start` throws `7`, the catch handler returns
`"End"`, and the post-step state is `"End"`. -/
theorem step_catch_string_witness :
    makeStepper tableB 9 recStart []
      = StepResult.ok (setState (setUpdated (archive recStart) 9) "End") :=
  step_catch_string tableB 9 recStart [] throwSeven catchToEnd
    (setUpdated (archive recStart) 9) (setUpdated (archive recStart) 9) (DV.num 7) "End"
    rfl rfl rfl rfl rfl (by decide)

/-- C4 counterexample: `Start` throws and the catch handler returns the
string `""`; the step resolves (the error does not propagate) but the
post-step state is `"Start"`, not `""` — the empty string is falsy so the
engine performs no reassignment. -/
theorem step_catch_string_cex :
    makeStepper tableCatchEmpty 9 recStart []
        = StepResult.ok (Record.mk "Start" false (some [Snapshot.mk "Start" 0]) 9 [])
      ∧ (Record.mk "Start" false (some [Snapshot.mk "Start" 0]) 9 []).state ≠ "" :=
  ⟨rfl, by decide⟩

/-- C6 (amended): the catch handler is stored under the key `"catch"` of the
same handler table as ordinary state names, so `"catch"` *is* accepted by the
invalid-state check: stepping a record whose state is `"catch"` finds a
handler (the catch entry, invoked as an ordinary state handler) and never
fails with the invalid-state error. -/
theorem step_catch_key_not_invalid (H : String → Option JsFun) (now : Int) (r : Record)
    (args : List DV) (hst : r.state = "catch") :
    (installCatch H r.state).isSome = true ∧
    ∀ m r2, makeStepper H now r args ≠ StepResult.err (StepErr.invalidState m) r2 := by
  have hsome : installCatch H r.state = some ((H "catch").getD defaultCatch) := by
    rw [hst]
    unfold installCatch
    rw [if_pos rfl]
  refine ⟨by rw [hsome]; rfl, fun m r2 => ?_⟩
  unfold makeStepper
  exact step_not_invalid_of_some (installCatch H) now r args _ hsome m r2

/-- Witness for C6 (amended) at a concrete record in state `"catch"` over
the empty user table. -/
theorem step_catch_key_not_invalid_witness :
    (installCatch tableNone recCatch.state).isSome = true ∧
    makeStepper tableNone 5 recCatch []
      ≠ StepResult.err (StepErr.invalidState ("Invalid state trasition: " ++ "catch")) recCatch :=
  ⟨(step_catch_key_not_invalid tableNone 5 recCatch [] rfl).1,
   (step_catch_key_not_invalid tableNone 5 recCatch [] rfl).2
     ("Invalid state trasition: " ++ "catch") recCatch⟩

/-- C6 counterexample: with no user handlers at all, stepping a non-done
record whose state is `"catch"` does *not* fail the invalid-state check: the
record is archived and time-stamped and the installed default catch entry is
invoked as an ordinary state handler (receiving the record in the error
position and rethrowing it), so the call rejects with the record as the
raised value — not with the invalid-state error on the unmutated record that
the claim predicts. -/
theorem step_catch_key_cex :
    makeStepper tableNone 5 recCatch []
        = StepResult.err (StepErr.raised DV.theRecord)
            (Record.mk "catch" false (some [Snapshot.mk "catch" 0]) 5 [])
      ∧ makeStepper tableNone 5 recCatch []
        ≠ StepResult.err (StepErr.invalidState ("Invalid state trasition: " ++ "catch")) recCatch :=
  ⟨rfl, by decide⟩

/-- C7: for every non-done record whose transition result — from the handler
(first conjunct) or from the catch handler after the handler threw (second
conjunct) — is a truthy value that is neither a string nor the record
reference, the step rejects with the bad-return-type error, and at that
point the pre-step snapshot has already been archived into `history` and
`updated` has already been set to the current time (no rollback; the
handlers are assumed to leave `history` and `updated` to the engine). -/
theorem step_bad_return_type (H : String → Option JsFun) (now : Int) (r : Record)
    (args : List DV) (f c : JsFun)
    (hdone : r.done = false)
    (hf : installCatch H r.state = some f)
    (hc : installCatch H "catch" = some c)
    (hfh : ∀ s, ((f (DV.theRecord :: args) s).1).history = s.history)
    (hfu : ∀ s, ((f (DV.theRecord :: args) s).1).updated = s.updated) :
    (∀ s3 t, f (DV.theRecord :: args) (setUpdated (archive r) now) = (s3, Except.ok t) →
      truthy t = true → (∀ x, t ≠ DV.str x) → t ≠ DV.theRecord →
      makeStepper H now r args = StepResult.err
          (StepErr.badReturnType
            "State handlers must return either a string state transition or nothing") s3
        ∧ s3.history = some (Snapshot.mk r.state r.updated :: r.history.getD [])
        ∧ s3.updated = now)
    ∧ (∀ e s3 s4 t,
      (∀ s, ((c (e :: DV.theRecord :: args) s).1).history = s.history) →
      (∀ s, ((c (e :: DV.theRecord :: args) s).1).updated = s.updated) →
      f (DV.theRecord :: args) (setUpdated (archive r) now) = (s3, Except.error e) →
      c (e :: DV.theRecord :: args) s3 = (s4, Except.ok t) →
      truthy t = true → (∀ x, t ≠ DV.str x) → t ≠ DV.theRecord →
      makeStepper H now r args = StepResult.err
          (StepErr.badReturnType
            "State handlers must return either a string state transition or nothing") s4
        ∧ s4.history = some (Snapshot.mk r.state r.updated :: r.history.getD [])
        ∧ s4.updated = now) := by
  constructor
  · intro s3 t hret ht hns hnr
    have h1 : s3.history = (setUpdated (archive r) now).history := by
      have h0 := hfh (setUpdated (archive r) now)
      rw [hret] at h0
      exact h0
    have h2 : s3.updated = (setUpdated (archive r) now).updated := by
      have h0 := hfu (setUpdated (archive r) now)
      rw [hret] at h0
      exact h0
    refine ⟨?_, h1.trans rfl, h2.trans rfl⟩
    unfold makeStepper
    rw [step_some_eq (installCatch H) now r args f hdone hf, hret]
    exact interpretTransition_bad s3 t ht hns hnr
  · intro e s3 s4 t hchh hchu hthrow hcret ht hns hnr
    have h1 : s3.history = (setUpdated (archive r) now).history := by
      have h0 := hfh (setUpdated (archive r) now)
      rw [hthrow] at h0
      exact h0
    have h2 : s3.updated = (setUpdated (archive r) now).updated := by
      have h0 := hfu (setUpdated (archive r) now)
      rw [hthrow] at h0
      exact h0
    have h3 : s4.history = s3.history := by
      have h0 := hchh s3
      rw [hcret] at h0
      exact h0
    have h4 : s4.updated = s3.updated := by
      have h0 := hchu s3
      rw [hcret] at h0
      exact h0
    refine ⟨?_, (h3.trans h1).trans rfl, (h4.trans h2).trans rfl⟩
    unfold makeStepper
    rw [step_throw_eq (installCatch H) now r args f s3 e c hdone hf hthrow hc, hcret]
    exact interpretTransition_bad s4 t ht hns hnr

/-- Witness for C7 (handler path): `Start` returns `true` (truthy,
non-string, non-record); the step rejects with the bad-return-type error and
the error-time record has the snapshot archived and `updated = 9`. -/
theorem step_bad_return_type_witness :
    makeStepper tableBadRet 9 recStart []
        = StepResult.err (StepErr.badReturnType
            "State handlers must return either a string state transition or nothing")
          (setUpdated (archive recStart) 9)
      ∧ (setUpdated (archive recStart) 9).history
          = some (Snapshot.mk recStart.state recStart.updated :: recStart.history.getD [])
      ∧ (setUpdated (archive recStart) 9).updated = 9 :=
  (step_bad_return_type tableBadRet 9 recStart [] retTrue defaultCatch rfl rfl rfl
      (fun _ => rfl) (fun _ => rfl)).1
    (setUpdated (archive recStart) 9) (DV.boolean true) rfl rfl
    (fun _ h => DV.noConfusion h) (fun h => DV.noConfusion h)

/-- C8: when the user table has no catch entry, construction installs the
default catch handler `e => { throw e }`, so a throw of `e` from a state
handler makes the step call reject with that same error `e`. -/
theorem step_default_catch (H : String → Option JsFun) (now : Int) (r : Record)
    (args : List DV) (f : JsFun) (s3 : Record) (e : DV)
    (hnoc : H "catch" = none)
    (hdone : r.done = false)
    (hf : installCatch H r.state = some f)
    (hthrow : f (DV.theRecord :: args) (setUpdated (archive r) now) = (s3, Except.error e)) :
    installCatch H "catch" = some defaultCatch ∧
    makeStepper H now r args = StepResult.err (StepErr.raised e) s3 := by
  have hc : installCatch H "catch" = some defaultCatch := by
    unfold installCatch
    rw [if_pos rfl, hnoc]
    rfl
  refine ⟨hc, ?_⟩
  unfold makeStepper
  rw [step_throw_eq (installCatch H) now r args f s3 e defaultCatch hdone hf hthrow hc]
  rfl

/-- Witness for C8: `Start` throws the number `7` over a table with no user
catch entry; the step rejects with that same value. -/
theorem step_default_catch_witness :
    installCatch tableThrowOnly "catch" = some defaultCatch ∧
    makeStepper tableThrowOnly 9 recStart []
      = StepResult.err (StepErr.raised (DV.num 7)) (setUpdated (archive recStart) 9) :=
  step_default_catch tableThrowOnly 9 recStart [] throwSeven
    (setUpdated (archive recStart) 9) (DV.num 7) rfl rfl rfl rfl

/-- C9: `State` builds a new record with defaults `state = "Start"`,
`done = false`, `history = []`, `updated = now`, overlaid with any
caller-supplied fields, the caller winning on every collision (including an
override of `state`); with no arguments it yields exactly the defaults, and
on the spec's example `{state: "Other", foo: 1}` it keeps the caller's
`state` and `foo` with the remaining defaults. -/
theorem State_defaults_overlay :
    (∀ now : Int, State now {} = Record.mk "Start" false (some []) now []) ∧
    (∀ (now : Int) (init : StateInit),
      (State now init).state = init.state.getD "Start" ∧
      (State now init).done = init.done.getD false ∧
      (State now init).history = init.history.getD (some []) ∧
      (State now init).updated = init.updated.getD now ∧
      (State now init).fields = init.fields) ∧
    (∀ now : Int,
      State now { state := some "Other", fields := [("foo", DV.num 1)] }
        = Record.mk "Other" false (some []) now [("foo", DV.num 1)]) :=
  ⟨fun _ => rfl, fun _ _ => ⟨rfl, rfl, rfl, rfl, rfl⟩, fun _ => rfl⟩

end StepState
